import Mathlib

/-!
Verification of the tourism API client core: the HTTP retry wrapper
(`fetchWithRetry`, lib/api/tour-api.ts), the response parser/normalizer
(`parseApiResponse` and the `items.item` normalization), the coordinate
converter (`katecToWgs84`, lib/utils/coordinate.ts), the infinite-scroll
aggregator (`useInfiniteTours`, hooks/use-infinite-tours.ts), the batch
pet-info fetcher (`batchGetPetTourInfo`, lib/utils/pet-filter.ts) and the
`/api/tours` route handler (app/api/tours/route.ts).

Each definition is a shallow embedding of the corresponding TypeScript
function: JavaScript numbers are modelled exactly as scaled decimal
integers `mant * 10 ^ exp` (with an explicit NaN/Infinity-carrying type
where the code can produce them, and a rational-valued denotation),
promise rejection as `Except`, and the event-loop interleaving of the
aggregator as an explicit event trace with atomic synchronous blocks.
-/

namespace TourApi

/-! ## HTTP retry wrapper (`fetchWithRetry`)

One call of the underlying `fetch` (attempt number `i`) either resolves
with a response carrying an HTTP status, rejects with a network error, or
is aborted by the per-attempt timeout (an `AbortError`).  The transport is
modelled as a function from the attempt index to that outcome. -/

/-- Outcome of a single `fetch` call inside `fetchWithRetry`. -/
inductive AttemptOutcome : Type
  | response (status : Nat)
  | netError
  | timeout
  deriving DecidableEq, Repr

/-- The errors `fetchWithRetry` can throw, keyed by the distinct `Error`
messages constructed in the source (`API 요청 실패`, `서버 에러`,
`요청 시간 초과`, the stored network error, `알 수 없는 에러`). -/
inductive FetchError : Type
  | clientError (status : Nat)
  | serverError (status : Nat)
  | timeoutError
  | network
  | unknown
  deriving DecidableEq, Repr

/-- Result of `fetchWithRetry`: the returned response's status, or the
thrown error. -/
inductive FetchResult : Type
  | success (status : Nat)
  | error (e : FetchError)
  deriving DecidableEq, Repr

/-- `response.ok` in the Fetch API: status in [200, 300). -/
def responseOk (status : Nat) : Bool :=
  200 ≤ status && status < 300

/-- The `for (let attempt = 0; attempt < maxRetries; attempt++)` loop of
`fetchWithRetry`, one list element per remaining iteration (the list is
`[attempt, …, maxRetries - 1]`), carrying the number of `fetch` calls made
so far, the `lastError` variable, and the list of backoff delays (in ms)
performed so far.  Returns the result, the number of `fetch` calls made,
and the delay list.

Faithful control-flow detail: the `throw` for a 4xx status sits inside the
same `try` block, so it is caught by the `catch (error)` clause below it;
`error.name` of that `Error` is not `"AbortError"`, hence the 4xx error is
stored in `lastError` and the loop continues — a 4xx is retried exactly
like a 5xx.  An aborted attempt (`AbortError`) is rethrown from the catch
clause as the timeout error (`요청 시간 초과`) and escapes the loop at
once.  The backoff delay `2 ^ attempt * 1000` ms is performed only when
`attempt < maxRetries - 1`. -/
def fetchLoop (transport : Nat → AttemptOutcome) (maxRetries : Nat) :
    List Nat → Nat → Option FetchError → List Nat → FetchResult × Nat × List Nat
  | [], made, lastError, delays =>
      (.error (lastError.getD .unknown), made, delays)
  | attempt :: rest, made, lastError, delays =>
      match transport attempt with
      | .response s =>
          if responseOk s then
            (.success s, made + 1, delays)
          else
            let e : FetchError :=
              if 400 ≤ s && s < 500 then .clientError s else .serverError s
            let delays' :=
              if attempt < maxRetries - 1 then delays ++ [2 ^ attempt * 1000] else delays
            fetchLoop transport maxRetries rest (made + 1) (some e) delays'
      | .netError =>
          let delays' :=
            if attempt < maxRetries - 1 then delays ++ [2 ^ attempt * 1000] else delays
          fetchLoop transport maxRetries rest (made + 1) (some .network) delays'
      | .timeout =>
          (.error .timeoutError, made + 1, delays)

/-- `fetchWithRetry(url, options, maxRetries, timeout)`: run the retry
loop over attempts `0, …, maxRetries - 1` with no recorded error. -/
def fetchWithRetry (transport : Nat → AttemptOutcome) (maxRetries : Nat := 3) :
    FetchResult × Nat × List Nat :=
  fetchLoop transport maxRetries (List.range maxRetries) 0 none []

/-! ## Response parser and one-or-many normalization

The upstream envelope's `response.body.items.item` field is, in the JSON,
either entirely absent (`undefined`), a single bare object (the upstream
serialization collapses singleton arrays), or an array. -/

/-- The JSON shape of `response.body.items.item`. -/
inductive ItemField (T : Type) : Type
  | absent
  | one (x : T)
  | many (xs : List T)
  deriving DecidableEq, Repr

/-- The envelope after `response.json()`: header result code/message and
the body's item field and total count. -/
structure Envelope (T : Type) : Type where
  resultCode : String
  resultMsg : String
  item : ItemField T
  totalCount : Nat
  deriving DecidableEq, Repr

/-- The parsed JSON of a response: either the expected outer `response`
object is missing, or an envelope is present. -/
inductive JsonBody (T : Type) : Type
  | malformed
  | envelope (e : Envelope T)
  deriving DecidableEq, Repr

/-- Errors thrown by the parser and the detail lookups, keyed by the
`Error` messages constructed in tour-api.ts.  `wrapped ctx e` is the
re-thrown error `<ctx> 조회 실패: <message of e>` built in each exported
function's catch clause. -/
inductive TourErr : Type
  | malformedEnvelope
  | apiError (code msg : String)
  | notFound (what : String)
  | wrapped (ctx : String) (inner : TourErr)
  deriving DecidableEq, Repr

/-- The `Error.message` string of each error, as constructed in the
source. -/
def TourErr.message : TourErr → String
  | .malformedEnvelope => "API 응답 형식이 올바르지 않습니다."
  | .apiError c m => "API 에러: " ++ c ++ " - " ++ m
  | .notFound what => what ++ "를 찾을 수 없습니다."
  | .wrapped ctx inner => ctx ++ " 조회 실패: " ++ inner.message

/-- Boolean infix (substring) test on lists, used to model JavaScript's
`String.prototype.includes`. -/
def listIsInfixOf {α : Type} [DecidableEq α] : List α → List α → Bool
  | pat, [] => decide (pat = [])
  | pat, c :: cs => pat.isPrefixOf (c :: cs) || listIsInfixOf pat cs

/-- `text.includes(pat)` on JavaScript strings. -/
def strContains (text pat : String) : Bool :=
  listIsInfixOf pat.data text.data

/-- `parseApiResponse`: reject a body without the outer `response`
object, reject a header result code other than `"0000"`, otherwise return
the envelope. -/
def parseApiResponse {T : Type} : JsonBody T → Except TourErr (Envelope T)
  | .malformed => .error .malformedEnvelope
  | .envelope e =>
      if e.resultCode = "0000" then .ok e
      else .error (.apiError e.resultCode e.resultMsg)

/-- The normalization `Array.isArray(items) ? items : items ? [items] : []`
applied to the item field (an absent field is `undefined`, hence falsy; a
bare object is truthy; an array — even empty — is `Array.isArray`). -/
def normalizeItems {T : Type} : ItemField T → List T
  | .absent => []
  | .one x => [x]
  | .many xs => xs

/-- The extraction `Array.isArray(items) ? items[0] : items` used by the
single-record lookups (`items[0]` of an empty array is `undefined`). -/
def firstItem {T : Type} : ItemField T → Option T
  | .absent => none
  | .one x => some x
  | .many xs => xs.head?

/-- `getAreaBasedList` after the network layer: parse the envelope,
normalize the item field, pair it with `totalCount`; any error is
re-thrown wrapped as `관광지 목록 조회 실패`. -/
def getAreaBasedList {T : Type} (b : JsonBody T) : Except TourErr (List T × Nat) :=
  match parseApiResponse b with
  | .error e => .error (.wrapped "관광지 목록" e)
  | .ok env => .ok (normalizeItems env.item, env.totalCount)

/-- `getDetailIntro` after the network layer: parse, take the first item,
and throw `운영 정보를 찾을 수 없습니다.` when it is absent; every error —
including that one — is caught by the function's own catch clause and
re-thrown wrapped as `운영 정보 조회 실패`. -/
def getDetailIntro {T : Type} (b : JsonBody T) : Except TourErr T :=
  match parseApiResponse b with
  | .error e => .error (.wrapped "운영 정보" e)
  | .ok env =>
      match firstItem env.item with
      | none => .error (.wrapped "운영 정보" (.notFound "운영 정보"))
      | some item => .ok item

/-- `getDetailImage` after the network layer: parse and normalize the item
field into a list; errors are re-thrown wrapped as `이미지 목록 조회 실패`. -/
def getDetailImage {T : Type} (b : JsonBody T) : Except TourErr (List T) :=
  match parseApiResponse b with
  | .error e => .error (.wrapped "이미지 목록" e)
  | .ok env => .ok (normalizeItems env.item)

/-- `getDetailPetTour` after the network layer: an absent item field
returns `null` before any throw; a present field returns its first item
(`undefined`, i.e. `none`, for an empty array).  The catch clause returns
`null` when the caught error's message contains `조회 실패` and otherwise
re-throws it wrapped as `반려동물 정보 조회 실패`. -/
def getDetailPetTour {T : Type} (b : JsonBody T) : Except TourErr (Option T) :=
  match parseApiResponse b with
  | .error e =>
      if strContains e.message "조회 실패" then .ok none
      else .error (.wrapped "반려동물 정보" e)
  | .ok env =>
      match env.item with
      | .absent => .ok none
      | it => .ok (firstItem it)

/-- The detail page (app/spots/[contentId]/page.tsx) wraps its
`getDetailIntro` call in `try { … } catch { intro = null }`, so at page
level an intro-lookup failure is represented as `null`. -/
def pageIntro {T : Type} (b : JsonBody T) : Option T :=
  (getDetailIntro b).toOption

/-! ## Coordinate converter (`katecToWgs84`)

JavaScript numbers are modelled exactly: `parseFloat` of a decimal string
yields a value `mant * 10 ^ exp` with integer mantissa and exponent, plus
the two non-finite shapes `NaN` and signed `Infinity`.  The division by
the scale constant 10,000,000 = 10^7 is the exponent shift `exp - 7`, and
every comparison the converter performs is decided exactly on the
represented rational (`NaN` compares false, `±Infinity` by its sign),
matching the JS comparisons on all inputs the converter sees.  `toRat`
below ties the representation to its rational value. -/

/-- A JavaScript number as produced by `parseFloat`: `NaN`, `±Infinity`,
or the exact value `mant * 10 ^ exp`. -/
inductive JsNum : Type
  | nan
  | inf (neg : Bool)
  | num (mant : Int) (exp : Int)
  deriving DecidableEq, Repr

/-- The rational value of a finite `JsNum`. -/
def JsNum.toRat : JsNum → Option ℚ
  | .num m e => some ((m : ℚ) * (10 : ℚ) ^ e)
  | _ => none

/-- `isNaN(x)`. -/
def JsNum.isNaN : JsNum → Bool
  | .nan => true
  | _ => false

/-- `x === 0` (true for `0` and `-0`; `m * 10 ^ e = 0` iff `m = 0`). -/
def JsNum.isZero : JsNum → Bool
  | .num m _ => m = 0
  | _ => false

/-- `m * 10 ^ e < c` for an integer constant `c`, decided on integers by
clearing the power of ten to whichever side keeps it nonnegative. -/
def decLtInt (m e c : Int) : Bool :=
  if 0 ≤ e then m * 10 ^ e.toNat < c else m < c * 10 ^ (-e).toNat

/-- `c < m * 10 ^ e` for an integer constant `c`. -/
def decGtInt (m e c : Int) : Bool :=
  if 0 ≤ e then c < m * 10 ^ e.toNat else c * 10 ^ (-e).toNat < m

/-- `x < c`: false for `NaN`, decided by the sign for `±Infinity`. -/
def JsNum.ltConst : JsNum → Int → Bool
  | .nan, _ => false
  | .inf b, _ => b
  | .num m e, c => decLtInt m e c

/-- `x > c`. -/
def JsNum.gtConst : JsNum → Int → Bool
  | .nan, _ => false
  | .inf b, _ => !b
  | .num m e, c => decGtInt m e c

/-- Division by `10 ^ k` (the converter only ever divides by the scale
constant `10000000 = 10 ^ 7`): an exact exponent shift. -/
def JsNum.divPow10 : JsNum → Nat → JsNum
  | .nan, _ => .nan
  | .inf b, _ => .inf b
  | .num m e, k => .num m (e - k)

/-- Negation (`-x`), applied when the parsed string has a leading `-`. -/
def JsNum.negate : JsNum → JsNum
  | .nan => .nan
  | .inf b => .inf (!b)
  | .num m e => .num (-m) e

/-- Value of a digit string read in base 10. -/
def digitsVal (ds : List Char) : Nat :=
  ds.foldl (fun a c => a * 10 + (c.toNat - 48)) 0

/-- Split a character list into its leading decimal digits and the rest. -/
def takeDigits (cs : List Char) : List Char × List Char :=
  (cs.takeWhile Char.isDigit, cs.dropWhile Char.isDigit)

/-- Exponent digits after `e`/`E` and an optional sign; an empty digit
run contributes no exponent (JS `parseFloat` takes the longest valid
numeric prefix, so `"1e"` parses as `1`). -/
def parseExpDigits (neg : Bool) (cs : List Char) : Int :=
  let ds := cs.takeWhile Char.isDigit
  if ds = [] then 0
  else if neg then -(digitsVal ds : Int) else (digitsVal ds : Int)

/-- The optional exponent part of a JS decimal literal. -/
def parseExponent (cs : List Char) : Int :=
  match cs with
  | 'e' :: '+' :: rest => parseExpDigits false rest
  | 'e' :: '-' :: rest => parseExpDigits true rest
  | 'e' :: rest => parseExpDigits false rest
  | 'E' :: '+' :: rest => parseExpDigits false rest
  | 'E' :: '-' :: rest => parseExpDigits true rest
  | 'E' :: rest => parseExpDigits false rest
  | _ => 0

/-- An unsigned `parseFloat` body: `Infinity`, or the mantissa
`digits [. digits]` (`NaN` when no digit is present on either side of the
point) scaled by the optional exponent: the digit strings `ip` and `fp`
around the point denote `digitsVal (ip ++ fp) * 10 ^ (exponent - |fp|)`. -/
def parseFloatPos (cs : List Char) : JsNum :=
  if "Infinity".data.isPrefixOf cs then .inf false
  else
    let (ip, r1) := takeDigits cs
    let (fp, r2) :=
      match r1 with
      | '.' :: rest => takeDigits rest
      | _ => ([], r1)
    if ip = [] && fp = [] then .nan
    else .num (digitsVal (ip ++ fp) : Int) (parseExponent r2 - fp.length)

/-- JavaScript `parseFloat`: skip leading whitespace, read an optional
sign, then the longest valid numeric prefix; `NaN` when none exists. -/
def parseFloat (s : String) : JsNum :=
  match s.data.dropWhile Char.isWhitespace with
  | '-' :: rest => (parseFloatPos rest).negate
  | '+' :: rest => parseFloatPos rest
  | cs => parseFloatPos cs

/-- The `{ lng, lat }` object returned by `katecToWgs84`. -/
structure Wgs84 : Type where
  lng : JsNum
  lat : JsNum
  deriving DecidableEq, Repr

/-- The fallback `{ lat: 37.5665, lng: 126.9780 }` (Seoul City Hall). -/
def defaultCoords : Wgs84 :=
  ⟨.num 1269780 (-4), .num 375665 (-4)⟩

/-- `katecToWgs84(mapx, mapy)` from lib/utils/coordinate.ts: empty input,
non-numeric or zero parse, or a quotient outside the Korea bounding box
(longitude 124–132, latitude 33–43) falls back to `defaultCoords`;
otherwise each input is divided by 10,000,000. -/
def katecToWgs84 (mapx mapy : String) : Wgs84 :=
  if mapx = "" || mapy = "" then defaultCoords
  else
    let lngNum := parseFloat mapx
    let latNum := parseFloat mapy
    if lngNum.isNaN || latNum.isNaN || lngNum.isZero || latNum.isZero then
      defaultCoords
    else
      let lng := lngNum.divPow10 7
      let lat := latNum.divPow10 7
      if lng.ltConst 124 || lng.gtConst 132 || lat.ltConst 33 || lat.gtConst 43 then
        defaultCoords
      else ⟨lng, lat⟩

/-- The fallback condition exactly as the spec words it: an input is
missing (empty), non-numeric, or exactly zero, or division by the scale
constant yields a longitude outside [124, 132] or a latitude outside
[33, 43]. -/
def fallbackCond (mapx mapy : String) : Bool :=
  mapx = "" || mapy = "" ||
  (parseFloat mapx).isNaN || (parseFloat mapy).isNaN ||
  (parseFloat mapx).isZero || (parseFloat mapy).isZero ||
  ((parseFloat mapx).divPow10 7).ltConst 124 ||
  ((parseFloat mapx).divPow10 7).gtConst 132 ||
  ((parseFloat mapy).divPow10 7).ltConst 33 ||
  ((parseFloat mapy).divPow10 7).gtConst 43

/-! ## Infinite-scroll aggregator (`useInfiniteTours`)

The hook's state is the accumulated tour list, the current page, the
synchronous in-flight guard ref `isLoadingRef`, the rendered `isLoading`
and `error` state, and `hasMore`.  The ghost field `inFlight` counts
fetches currently in flight.  `loadMore`'s synchronous prelude — guard
check, setting the ref and loading state, clearing the error, building
the request — runs atomically up to the `fetch` suspension point
(single-threaded event loop, §5 of the spec), so it is one step; the
resolution of the fetch (the rest of `loadMore` after `await`) is
another. -/

structure AggState (α : Type) : Type where
  tours : List α
  currentPage : Nat
  isLoadingRef : Bool
  isLoading : Bool
  error : Option String
  hasMore : Bool
  inFlight : Nat
  deriving DecidableEq, Repr

/-- The hook's initial state: seeded tours and total count, page 1, no
loading, no error, `hasMore = initialTours.length < totalCount`. -/
def initAgg {α : Type} (initialTours : List α) (totalCount : Nat) : AggState α :=
  { tours := initialTours, currentPage := 1, isLoadingRef := false,
    isLoading := false, error := none,
    hasMore := initialTours.length < totalCount, inFlight := 0 }

/-- The synchronous prelude of `loadMore()`: a no-op returning `false`
(no request issued) when already loading or no more data; otherwise set
the guard ref and loading state, clear the error, and issue the fetch
(`true`). -/
def loadMoreStart {α : Type} (s : AggState α) : AggState α × Bool :=
  if s.isLoadingRef || !s.hasMore then (s, false)
  else
    ({ s with isLoadingRef := true, isLoading := true, error := none,
              inFlight := s.inFlight + 1 }, true)

/-- How the in-flight fetch of `loadMore()` resolves: a well-shaped
`{ items, totalCount }` body, or any failure (non-ok response, bad shape,
network error) with its message. -/
inductive LoadOutcome (α : Type) : Type
  | ok (items : List α) (totalCount : Nat)
  | fail (msg : String)
  deriving DecidableEq, Repr

/-- The rest of `loadMore()` after the fetch resolves: on success append
the items, recompute `hasMore`, advance the page; on failure record the
error message; either way the `finally` block clears `isLoading` and the
guard ref. -/
def loadMoreFinish {α : Type} (s : AggState α) : LoadOutcome α → AggState α
  | .ok items total =>
      let newTours := s.tours ++ items
      { s with tours := newTours,
               hasMore := newTours.length < total,
               currentPage := s.currentPage + 1,
               isLoading := false, isLoadingRef := false,
               inFlight := s.inFlight - 1 }
  | .fail m =>
      { s with error := some m, isLoading := false, isLoadingRef := false,
               inFlight := s.inFlight - 1 }

/-- An event-loop step observable on one aggregator instance. -/
inductive AggEvent (α : Type) : Type
  | start
  | finish (o : LoadOutcome α)

/-- Apply one event. -/
def aggStep {α : Type} (s : AggState α) : AggEvent α → AggState α
  | .start => (loadMoreStart s).1
  | .finish o => loadMoreFinish s o

/-- Run an event trace. -/
def runEvents {α : Type} (s : AggState α) (evs : List (AggEvent α)) : AggState α :=
  evs.foldl aggStep s

/-- The guard invariant: a fetch is in flight exactly when the guard ref
is set. -/
def aggInv {α : Type} (s : AggState α) : Prop :=
  s.inFlight = if s.isLoadingRef then 1 else 0

/-! ## Bounded-concurrency batch fetcher (`batchGetPetTourInfo`)

The JS `Map` is modelled as an insertion-ordered association list with
JS `Map.set` semantics (update in place when the key exists, append
otherwise).  Each fetch inside a batch is wrapped in its own try/catch
yielding `null` on rejection, so every `Promise.allSettled` entry is
fulfilled — the defensive `rejected` arm of the source is dead code. -/

/-- JS `Map.set`. -/
def mapSet {ρ : Type} (m : List (String × Option ρ)) (k : String) (v : Option ρ) :
    List (String × Option ρ) :=
  if m.any (fun p => p.1 = k) then
    m.map (fun p => if p.1 = k then (k, v) else p)
  else m ++ [(k, v)]

/-- JS `Map.get` (as `Option` of the stored value). -/
def mapLookup {ρ : Type} (m : List (String × Option ρ)) (k : String) :
    Option (Option ρ) :=
  (m.find? (fun p => p.1 = k)).map Prod.snd

/-- One id's settled fetch: the pet info (possibly `null`) on success,
`null` when the fetch rejected (the inner catch logs and returns null). -/
def settleFetch {ε ρ : Type} (fetch : String → Except ε (Option ρ))
    (contentId : String) : Option ρ :=
  match fetch contentId with
  | .ok v => v
  | .error _ => none

/-- The `for (let i = 0; i < tourIds.length; i += batchSize)` loop:
slice the next batch, settle all its fetches, store them in the map, and
advance `i` by `batchSize`.  The loop is embedded with fuel; `none` means
the fuel bound was reached without the loop terminating (with
`batchSize = 0` the loop repeats `i = 0` forever, so no fuel suffices —
see `batchLoop_zero_bs`). -/
def batchLoop {ε ρ : Type} (fetch : String → Except ε (Option ρ))
    (tourIds : List String) (batchSize : Nat) :
    Nat → Nat → List (String × Option ρ) → Option (List (String × Option ρ))
  | 0, _, _ => none
  | fuel + 1, i, acc =>
      if i < tourIds.length then
        let batch := (tourIds.drop i).take batchSize
        let acc' := batch.foldl
          (fun m contentId => mapSet m contentId (settleFetch fetch contentId)) acc
        batchLoop fetch tourIds batchSize fuel (i + batchSize) acc'
      else some acc

/-- `batchGetPetTourInfo(tourIds, batchSize)`: run the batching loop from
`i = 0` on an empty map.  Fuel `tourIds.length + 1` covers every
terminating run (at most `⌈length / batchSize⌉ ≤ length` iterations when
`batchSize ≥ 1`). -/
def batchGetPetTourInfo {ε ρ : Type} (fetch : String → Except ε (Option ρ))
    (tourIds : List String) (batchSize : Nat := 10) :
    Option (List (String × Option ρ)) :=
  batchLoop fetch tourIds batchSize (tourIds.length + 1) 0 []

/-! ## `/api/tours` route handler -/

/-- Value of a digit string read in base 10, as an integer. -/
def parseIntDigits (cs : List Char) : Option Nat :=
  let ds := cs.takeWhile Char.isDigit
  if ds = [] then none else some (digitsVal ds)

/-- JavaScript `parseInt(s, 10)`: skip leading whitespace, optional sign,
then leading decimal digits; `NaN` (here `none`) when there are none. -/
def parseIntJs (s : String) : Option Int :=
  match s.data.dropWhile Char.isWhitespace with
  | '-' :: rest => (parseIntDigits rest).map (fun n => -(n : Int))
  | '+' :: rest => (parseIntDigits rest).map (fun n => (n : Int))
  | cs => (parseIntDigits cs).map (fun n => (n : Int))

/-- `searchParams.get(k) || d`: `null` and the empty string are falsy. -/
def jsOrDefault (v : Option String) (d : String) : String :=
  match v with
  | none => d
  | some s => if s = "" then d else s

/-- `x < c` on a possibly-NaN JS integer: false for `NaN`. -/
def jsNumLtInt (x : Option Int) (c : Int) : Bool :=
  match x with
  | none => false
  | some v => v < c

/-- `x > c` on a possibly-NaN JS integer: false for `NaN`. -/
def jsNumGtInt (x : Option Int) (c : Int) : Bool :=
  match x with
  | none => false
  | some v => c < v

/-- The error codes of lib/types/error.ts used by the route. -/
inductive ErrorCode : Type
  | timeoutCode | networkCode | unauthorizedCode | notFoundCode
  | validationCode | apiCode | internalCode | unknownCode
  deriving DecidableEq, Repr

/-- Lowercasing used by `getErrorCode` (ASCII; Korean text is unaffected,
as in JS). -/
def strToLower (s : String) : String :=
  String.mk (s.data.map Char.toLower)

/-- `getErrorCode` of lib/utils/error-handler.ts for an `Error` instance:
classify by substrings of the lowercased message. -/
def getErrorCode (message : String) : ErrorCode :=
  let m := strToLower message
  if strContains m "timeout" || strContains m "시간 초과" then .timeoutCode
  else if strContains m "network" || strContains m "네트워크" then .networkCode
  else if strContains m "unauthorized" || strContains m "인증" then .unauthorizedCode
  else if strContains m "not found" || strContains m "찾을 수 없음" then .notFoundCode
  else if strContains m "validation" || strContains m "유효성" then .validationCode
  else if strContains m "api" then .apiCode
  else .unknownCode

/-- The `{ error, code, statusCode }` object of `createErrorResponse`. -/
structure ErrorResponse : Type where
  error : String
  code : ErrorCode
  statusCode : Nat
  deriving DecidableEq, Repr

/-- `createErrorResponse(error, statusCode)`. -/
def createErrorResponse (message : String) (statusCode : Nat) : ErrorResponse :=
  { error := message, code := getErrorCode message, statusCode := statusCode }

/-- The JSON response of the route: the normalized `{ items, totalCount }`
with status 200, or an `ErrorResponse` body whose HTTP status is its
`statusCode`. -/
inductive RouteResponse (T : Type) : Type
  | okJson (items : List T) (totalCount : Nat)
  | errJson (body : ErrorResponse)
  deriving DecidableEq, Repr

/-- The query string of a request to `/api/tours` (`searchParams.get`
yields `null` for a missing key). -/
structure RouteQuery : Type where
  keyword : Option String
  areaCode : Option String
  contentTypeId : Option String
  numOfRows : Option String
  pageNo : Option String
  deriving DecidableEq, Repr

/-- `keyword && keyword.trim() !== ""` selects search mode with the
trimmed keyword; otherwise the area-based listing runs. -/
def routeKeywordArg (k : Option String) : Option String :=
  match k with
  | none => none
  | some s => if s.trim = "" then none else some s.trim

/-- `searchParams.get(k) || undefined` for the optional filters. -/
def routeOptArg (v : Option String) : Option String :=
  match v with
  | none => none
  | some s => if s = "" then none else some s

/-- `GET` of app/api/tours/route.ts: parse `numOfRows` (default `"20"`)
and `pageNo` (default `"1"`) with `parseInt`, validate them (comparisons
against `NaN` are false, exactly as in JS), then delegate to the upstream
listing/search call; its success is returned as `{ items, totalCount }`,
its failure as `createErrorResponse(message, 500)`.  The returned flag
records whether the upstream call was made. -/
def routeGET {T : Type}
    (upstream : Option String → Option String → Option String →
      Option Int → Option Int → Except String (List T × Nat))
    (q : RouteQuery) : RouteResponse T × Bool :=
  let numOfRows := parseIntJs (jsOrDefault q.numOfRows "20")
  let pageNo := parseIntJs (jsOrDefault q.pageNo "1")
  if jsNumLtInt numOfRows 1 || jsNumGtInt numOfRows 100 then
    (.errJson (createErrorResponse "numOfRows는 1 이상 100 이하여야 합니다." 400), false)
  else if jsNumLtInt pageNo 1 then
    (.errJson (createErrorResponse "pageNo는 1 이상이어야 합니다." 400), false)
  else
    match upstream (routeKeywordArg q.keyword) (routeOptArg q.areaCode)
        (routeOptArg q.contentTypeId) numOfRows pageNo with
    | .ok (items, total) => (.okJson items total, true)
    | .error msg => (.errJson (createErrorResponse msg 500), true)

/-- One-step unfolding of the loop body, stated as a definitional
equation so proofs can unfold exactly one iteration. -/
theorem fetchLoop_cons_step (t : Nat → AttemptOutcome) (m a : Nat) (rest : List Nat)
    (made : Nat) (le : Option FetchError) (ds : List Nat) :
    fetchLoop t m (a :: rest) made le ds =
      match t a with
      | .response s =>
          if responseOk s then (.success s, made + 1, ds)
          else
            fetchLoop t m rest (made + 1)
              (some (if 400 ≤ s && s < 500 then .clientError s else .serverError s))
              (if a < m - 1 then ds ++ [2 ^ a * 1000] else ds)
      | .netError =>
          fetchLoop t m rest (made + 1) (some .network)
            (if a < m - 1 then ds ++ [2 ^ a * 1000] else ds)
      | .timeout => (.error .timeoutError, made + 1, ds) := rfl

/-- One-step unfolding: a 5xx (or other non-ok, non-4xx) response stores
the server error and continues the loop. -/
theorem fetchLoop_cons_of_server (t : Nat → AttemptOutcome) (m a : Nat)
    (rest : List Nat) (made : Nat) (le : Option FetchError) (ds : List Nat)
    (s : Nat) (h : t a = .response s) (hok : responseOk s = false)
    (hcl : (400 ≤ s && s < 500) = false) :
    fetchLoop t m (a :: rest) made le ds =
      fetchLoop t m rest (made + 1) (some (.serverError s))
        (if a < m - 1 then ds ++ [2 ^ a * 1000] else ds) := by
  simp only [fetchLoop, h, hok, hcl, Bool.false_eq_true, if_false]

/-- One-step unfolding: a thrown network error stores the error and
continues the loop. -/
theorem fetchLoop_cons_of_netError (t : Nat → AttemptOutcome) (m a : Nat)
    (rest : List Nat) (made : Nat) (le : Option FetchError) (ds : List Nat)
    (h : t a = .netError) :
    fetchLoop t m (a :: rest) made le ds =
      fetchLoop t m rest (made + 1) (some .network)
        (if a < m - 1 then ds ++ [2 ^ a * 1000] else ds) := by
  simp only [fetchLoop, h]

/-- One-step unfolding: an aborted (timed-out) attempt throws the timeout
error at once. -/
theorem fetchLoop_cons_of_timeout (t : Nat → AttemptOutcome) (m a : Nat)
    (rest : List Nat) (made : Nat) (le : Option FetchError) (ds : List Nat)
    (h : t a = .timeout) :
    fetchLoop t m (a :: rest) made le ds = (.error .timeoutError, made + 1, ds) := by
  simp only [fetchLoop, h]

/-- The attempt counter never decreases: the loop returns at least the
number of attempts already made. -/
theorem fetchLoop_count_ge (t : Nat → AttemptOutcome) (m : Nat) :
    ∀ (l : List Nat) (made : Nat) (le : Option FetchError) (ds : List Nat),
      made ≤ (fetchLoop t m l made le ds).2.1 := by
  intro l
  induction l with
  | nil => intro made le ds; simp [fetchLoop]
  | cons a rest ih =>
      intro made le ds
      simp only [fetchLoop]
      cases t a with
      | response s =>
          by_cases hok : responseOk s
          · simp [hok]
          · simp only [hok, if_false, Bool.false_eq_true]
            exact le_trans (Nat.le_succ made) (ih _ _ _)
      | netError => exact le_trans (Nat.le_succ made) (ih _ _ _)
      | timeout => simp

/-- If at least one attempt index remains, the loop performs at least one
more `fetch` call. -/
theorem fetchLoop_count_succ_ge (t : Nat → AttemptOutcome) (m : Nat)
    (a : Nat) (rest : List Nat) (made : Nat) (le : Option FetchError) (ds : List Nat) :
    made + 1 ≤ (fetchLoop t m (a :: rest) made le ds).2.1 := by
  simp only [fetchLoop]
  cases t a with
  | response s =>
      by_cases hok : responseOk s
      · simp [hok]
      · simp only [hok, if_false, Bool.false_eq_true]
        exact fetchLoop_count_ge t m rest _ _ _
  | netError => exact fetchLoop_count_ge t m rest _ _ _
  | timeout => simp

/-- Each loop iteration makes at most one `fetch` call. -/
theorem fetchLoop_count_le (t : Nat → AttemptOutcome) (m : Nat) :
    ∀ (l : List Nat) (made : Nat) (le : Option FetchError) (ds : List Nat),
      (fetchLoop t m l made le ds).2.1 ≤ made + l.length := by
  intro l
  induction l with
  | nil => intro made le ds; simp [fetchLoop]
  | cons a rest ih =>
      intro made le ds
      simp only [fetchLoop, List.length_cons]
      cases t a with
      | response s =>
          by_cases hok : responseOk s
          · simp [hok]
          · simp only [hok, if_false, Bool.false_eq_true]
            exact le_trans (ih _ _ _) (by omega)
      | netError => exact le_trans (ih _ _ _) (by omega)
      | timeout => simp

/-- Over the attempt indices `a, …, a + n - 1` of a run with `a + n = m`,
at most `n - 1` backoff delays are appended (no delay follows the final
attempt `m - 1`). -/
theorem fetchLoop_delays_le (t : Nat → AttemptOutcome) (m : Nat) :
    ∀ (n a : Nat) (made : Nat) (le : Option FetchError) (ds : List Nat),
      a + n = m →
      (fetchLoop t m (List.range' a n) made le ds).2.2.length ≤ ds.length + (n - 1) := by
  intro n
  induction n with
  | zero => intro a made le ds _; simp [List.range', fetchLoop]
  | succ k ih =>
      intro a made le ds hm
      have hrange : List.range' a (k + 1) = a :: List.range' (a + 1) k := rfl
      rw [hrange]
      simp only [fetchLoop]
      cases t a with
      | response s =>
          by_cases hok : responseOk s
          · simp [hok]
          · simp only [hok, if_false, Bool.false_eq_true]
            by_cases hlast : a < m - 1
            · have hk : 1 ≤ k := by omega
              have := ih (a + 1) (made + 1) (some (if 400 ≤ s && s < 500 then
                FetchError.clientError s else FetchError.serverError s))
                (ds ++ [2 ^ a * 1000]) (by omega)
              simp only [hlast, if_true, List.length_append, List.length_cons,
                List.length_nil] at this ⊢
              omega
            · have hk : k = 0 := by omega
              subst hk
              simp [hlast, List.range', fetchLoop]
      | netError =>
          by_cases hlast : a < m - 1
          · have hk : 1 ≤ k := by omega
            have := ih (a + 1) (made + 1) (some FetchError.network)
              (ds ++ [2 ^ a * 1000]) (by omega)
            simp only [hlast, if_true, List.length_append, List.length_cons,
              List.length_nil] at this ⊢
            omega
          · have hk : k = 0 := by omega
            subst hk
            simp [hlast, List.range', fetchLoop]
      | timeout => simp

end TourApi

/-- C1: the claim says a client-error (4xx) response is terminal — a
transport that always returns 404 makes `execute` throw after exactly one
attempt.  On the code (`fetchWithRetry`), the `throw` for a 4xx status is
caught by the `catch` clause of the same `try`, stored in `lastError`, and
retried: with default `maxRetries = 3` the always-404 transport is fetched
3 times, two backoff delays (1000 ms, 2000 ms) are performed, and only
then is the 404 error thrown — contradicting both the claim and the
code's own comment `4xx 에러는 재시도하지 않음`. -/
theorem fetchWithRetry_always404_retries :
    TourApi.fetchWithRetry (fun _ => .response 404) 3 =
      (.error (.clientError 404), 3, [1000, 2000]) ∧
    (TourApi.fetchWithRetry (fun _ => .response 404) 3).2.1 ≠ 1 := by
  decide

/-- C2 counterexample: the claim says a timed-out attempt is retryable
while budget remains.  On the code, a transport whose first attempt times
out under `maxRetries = 3` makes `fetchWithRetry` throw the timeout error
after exactly one attempt — it does not proceed to a second attempt even
though two attempts of budget remain. -/
theorem fetchWithRetry_timeout_terminal_cex :
    TourApi.fetchWithRetry (fun _ => .timeout) 3 = (.error .timeoutError, 1, []) ∧
    (TourApi.fetchWithRetry (fun _ => .timeout) 3).2.1 = 1 := by
  decide

/-- C2 amended: an attempt that exceeds its timeout is aborted and the
timeout error is raised immediately — it is terminal, not retryable —
whereas a server-error status (500) or a thrown network error on the
first attempt is retryable: the wrapper proceeds to at least a second
attempt when budget remains. -/
theorem fetchWithRetry_timeout_vs_retryable (t : Nat → TourApi.AttemptOutcome)
    (m : Nat) (hm : 2 ≤ m) :
    (t 0 = .timeout → TourApi.fetchWithRetry t m = (.error .timeoutError, 1, [])) ∧
    ((t 0 = .response 500 ∨ t 0 = .netError) →
      2 ≤ (TourApi.fetchWithRetry t m).2.1) := by
  obtain ⟨k, rfl⟩ : ∃ k, m = k + 2 := ⟨m - 2, by omega⟩
  have hrange : List.range (k + 2) = 0 :: 1 :: List.range' 2 k := by
    rw [List.range_eq_range']
    rfl
  constructor
  · intro h0
    simp only [TourApi.fetchWithRetry]
    rw [hrange, TourApi.fetchLoop_cons_of_timeout t (k + 2) 0 _ 0 none [] h0]
  · intro h0
    rcases h0 with h0 | h0
    · simp only [TourApi.fetchWithRetry]
      rw [hrange, TourApi.fetchLoop_cons_of_server t (k + 2) 0 _ 0 none [] 500 h0
        (by decide) (by decide)]
      exact le_trans (by omega)
        (TourApi.fetchLoop_count_succ_ge t (k + 2) 1 (List.range' 2 k) (0 + 1) _ _)
    · simp only [TourApi.fetchWithRetry]
      rw [hrange, TourApi.fetchLoop_cons_of_netError t (k + 2) 0 _ 0 none [] h0]
      exact le_trans (by omega)
        (TourApi.fetchLoop_count_succ_ge t (k + 2) 1 (List.range' 2 k) (0 + 1) _ _)

/-- Witness for `fetchWithRetry_timeout_vs_retryable` at `m = 3` with a
transport that times out on its first attempt and another that returns
500 on its first attempt. -/
theorem fetchWithRetry_timeout_vs_retryable_witness :
    TourApi.fetchWithRetry (fun _ => .timeout) 3 = (.error .timeoutError, 1, []) ∧
    2 ≤ (TourApi.fetchWithRetry (fun _ => .response 500) 3).2.1 :=
  ⟨(fetchWithRetry_timeout_vs_retryable (fun _ => .timeout) 3 (by decide)).1 rfl,
   (fetchWithRetry_timeout_vs_retryable (fun _ => .response 500) 3 (by decide)).2
     (Or.inl rfl)⟩

/-- C3 counterexample: the claim says a transport failing with 500 on
three successive attempts and then succeeding makes
`execute(maxRetries = 3)` return the success response.  On the code,
`maxRetries = 3` means three total attempts, so all three fail, the loop
exhausts, and the last 500 error is thrown (after 2 delays of 1000 ms and
2000 ms); the fourth, successful attempt never happens. -/
theorem fetchWithRetry_three500_cex :
    TourApi.fetchWithRetry
        (fun i => if i < 3 then .response 500 else .response 200) 3 =
      (.error (.serverError 500), 3, [1000, 2000]) ∧
    (TourApi.fetchWithRetry
        (fun i => if i < 3 then .response 500 else .response 200) 3).1 ≠
      .success 200 := by
  decide

/-- C3 amended: with `maxRetries = 3`, a transport that fails with 500 on
its first two attempts and succeeds on the third makes `fetchWithRetry`
return the success response after exactly 3 attempts and 2 inter-attempt
backoff delays of 1000 ms and 2000 ms; and a transport failing with 500 on
all three attempts exhausts the budget and raises the last observed error
(the 500 server error), again after exactly 2 delays. -/
theorem fetchWithRetry_backoff_behavior (t : Nat → TourApi.AttemptOutcome)
    (h0 : t 0 = .response 500) (h1 : t 1 = .response 500) (h2 : t 2 = .response 200) :
    TourApi.fetchWithRetry t 3 = (.success 200, 3, [1000, 2000]) ∧
    ∀ u : Nat → TourApi.AttemptOutcome, (∀ i, i < 3 → u i = .response 500) →
      TourApi.fetchWithRetry u 3 = (.error (.serverError 500), 3, [1000, 2000]) := by
  constructor
  · have hrange : List.range 3 = [0, 1, 2] := rfl
    simp [TourApi.fetchWithRetry, hrange, TourApi.fetchLoop, h0, h1, h2,
      TourApi.responseOk]
  · intro u hu
    have hrange : List.range 3 = [0, 1, 2] := rfl
    simp [TourApi.fetchWithRetry, hrange, TourApi.fetchLoop,
      hu 0 (by omega), hu 1 (by omega), hu 2 (by omega), TourApi.responseOk]

/-- Witness for `fetchWithRetry_backoff_behavior` at the transport that
returns 500 twice and then 200, together with the always-500 transport. -/
theorem fetchWithRetry_backoff_behavior_witness :
    TourApi.fetchWithRetry
        (fun i => if i < 2 then .response 500 else .response 200) 3 =
      (.success 200, 3, [1000, 2000]) ∧
    TourApi.fetchWithRetry (fun _ => .response 500) 3 =
      (.error (.serverError 500), 3, [1000, 2000]) := by
  have h := fetchWithRetry_backoff_behavior
    (fun i => if i < 2 then .response 500 else .response 200)
    (by decide) (by decide) (by decide)
  exact ⟨h.1, h.2 (fun _ => .response 500) (fun i _ => rfl)⟩

/-- C10: the retry loop is bounded and total — for every transport and
every `maxRetries ≥ 1`, `fetchWithRetry` makes at most `maxRetries`
outbound `fetch` calls and performs at most `maxRetries - 1` backoff
delays; `maxRetries` counts total attempts, so the default of 3 issues at
most 3 requests with at most 2 delays between them (totality itself holds
by construction: `fetchWithRetry` is a total function). -/
theorem fetchWithRetry_bounded (t : Nat → TourApi.AttemptOutcome) (m : Nat)
    (hm : 1 ≤ m) :
    (TourApi.fetchWithRetry t m).2.1 ≤ m ∧
    (TourApi.fetchWithRetry t m).2.2.length ≤ m - 1 ∧
    (TourApi.fetchWithRetry t 3).2.1 ≤ 3 ∧
    (TourApi.fetchWithRetry t 3).2.2.length ≤ 2 := by
  have hcount : ∀ k, (TourApi.fetchWithRetry t k).2.1 ≤ k := by
    intro k
    have := TourApi.fetchLoop_count_le t k (List.range k) 0 none []
    simpa [TourApi.fetchWithRetry] using this
  have hdelay : ∀ k, (TourApi.fetchWithRetry t k).2.2.length ≤ k - 1 := by
    intro k
    have := TourApi.fetchLoop_delays_le t k k 0 0 none [] (by omega)
    rw [TourApi.fetchWithRetry, List.range_eq_range']
    simpa using this
  exact ⟨hcount m, hdelay m, hcount 3, hdelay 3⟩

/-- Witness for `fetchWithRetry_bounded` at the always-404 transport with
`maxRetries = 3`. -/
theorem fetchWithRetry_bounded_witness :
    (TourApi.fetchWithRetry (fun _ => .response 404) 3).2.1 ≤ 3 ∧
    (TourApi.fetchWithRetry (fun _ => .response 404) 3).2.2.length ≤ 2 :=
  ⟨(fetchWithRetry_bounded (fun _ => .response 404) 3 (by decide)).1,
   (fetchWithRetry_bounded (fun _ => .response 404) 3 (by decide)).2.1⟩

/-- C5: response normalization always yields an array from the
one-or-many item field of a successful envelope — `parseApiResponse`
accepts any envelope whose result code is the success sentinel `"0000"`,
and `normalizeItems` maps an absent item field to the empty array, a
single bare object to a one-element array containing it, and passes an
array of N items through unchanged with length N. -/
theorem parse_normalizes_items {T : Type} (e : TourApi.Envelope T)
    (h : e.resultCode = "0000") :
    TourApi.parseApiResponse (TourApi.JsonBody.envelope e) = .ok e ∧
    (e.item = .absent → TourApi.normalizeItems e.item = ([] : List T)) ∧
    (∀ x : T, e.item = .one x → TourApi.normalizeItems e.item = [x]) ∧
    (∀ xs : List T, e.item = .many xs →
      TourApi.normalizeItems e.item = xs ∧
      (TourApi.normalizeItems e.item).length = xs.length) := by
  refine ⟨by simp [TourApi.parseApiResponse, h], ?_, ?_, ?_⟩
  · intro habs; rw [habs]; rfl
  · intro x hone; rw [hone]; rfl
  · intro xs hmany; rw [hmany]; exact ⟨rfl, rfl⟩

/-- Witness for `parse_normalizes_items` at a concrete successful
envelope carrying a two-element item array. -/
theorem parse_normalizes_items_witness :
    TourApi.parseApiResponse (TourApi.JsonBody.envelope
      (⟨"0000", "OK", .many [5, 7], 2⟩ : TourApi.Envelope Nat)) =
      .ok ⟨"0000", "OK", .many [5, 7], 2⟩ ∧
    TourApi.normalizeItems (TourApi.ItemField.many [5, 7]) = [5, 7] := by
  have h := parse_normalizes_items
    (⟨"0000", "OK", .many [5, 7], 2⟩ : TourApi.Envelope Nat) rfl
  exact ⟨h.1, (h.2.2.2 [5, 7] rfl).1⟩

/-- C7 counterexample: the claim says all three supplementary detail
lookups yield a non-error result on a successful envelope with an absent
item set.  `getDetailIntro` instead throws: the absent first item hits
`운영 정보를 찾을 수 없습니다.`, which the function's own catch clause
re-throws wrapped as `운영 정보 조회 실패` — a raised error, not a
non-error representation. -/
theorem getDetailIntro_absent_raises :
    TourApi.getDetailIntro (TourApi.JsonBody.envelope
      (⟨"0000", "OK", .absent, 0⟩ : TourApi.Envelope Nat)) =
      .error (.wrapped "운영 정보" (.notFound "운영 정보")) := rfl

/-- C7 amended: on a successful envelope whose item set is absent or
empty, the pet-info lookup returns `null` and the image lookup returns
the empty list without raising; the intro lookup raises its wrapped
not-found error, which the detail page's own try/catch converts to `null`
(`pageIntro`), so at page level absence of partial data is not an error
for any of the three lookups. -/
theorem detail_lookups_absence {T : Type} (e : TourApi.Envelope T)
    (h : e.resultCode = "0000")
    (habs : e.item = .absent ∨ e.item = .many []) :
    TourApi.getDetailPetTour (TourApi.JsonBody.envelope e) = .ok none ∧
    TourApi.getDetailImage (TourApi.JsonBody.envelope e) = .ok ([] : List T) ∧
    TourApi.getDetailIntro (TourApi.JsonBody.envelope e) =
      .error (.wrapped "운영 정보" (.notFound "운영 정보")) ∧
    TourApi.pageIntro (TourApi.JsonBody.envelope e) = none := by
  have hp : TourApi.parseApiResponse (TourApi.JsonBody.envelope e) = .ok e := by
    simp [TourApi.parseApiResponse, h]
  rcases habs with habs | habs <;>
    refine ⟨?_, ?_, ?_, ?_⟩ <;>
      simp [TourApi.getDetailPetTour, TourApi.getDetailImage, TourApi.getDetailIntro,
        TourApi.pageIntro, hp, habs, TourApi.normalizeItems, TourApi.firstItem,
        Except.toOption]

/-- Witness for `detail_lookups_absence` at a concrete successful
envelope with an absent item field. -/
theorem detail_lookups_absence_witness :
    TourApi.getDetailPetTour (TourApi.JsonBody.envelope
      (⟨"0000", "OK", .absent, 0⟩ : TourApi.Envelope Nat)) = .ok none ∧
    TourApi.getDetailImage (TourApi.JsonBody.envelope
      (⟨"0000", "OK", .absent, 0⟩ : TourApi.Envelope Nat)) = .ok [] ∧
    TourApi.pageIntro (TourApi.JsonBody.envelope
      (⟨"0000", "OK", .absent, 0⟩ : TourApi.Envelope Nat)) = none := by
  have h := detail_lookups_absence
    (⟨"0000", "OK", .absent, 0⟩ : TourApi.Envelope Nat) rfl (Or.inl rfl)
  exact ⟨h.1, h.2.1, h.2.2.2⟩

/-- Dividing a finite JS number by the scale constant `10000000 = 10 ^ 7`
shifts the exponent; its rational value is the exact quotient. -/
theorem jsNum_divPow10_toRat (m e : Int) :
    ((TourApi.JsNum.num m e).divPow10 7).toRat =
      some (((m : ℚ) * (10 : ℚ) ^ e) / 10000000) := by
  simp only [TourApi.JsNum.divPow10, TourApi.JsNum.toRat, Option.some_inj]
  have h10 : (10 : ℚ) ≠ 0 := by norm_num
  rw [zpow_sub₀ h10, mul_div_assoc]
  norm_num

/-- C4: the coordinate converter is total and never throws (it is a total
Lean function by construction); whenever an input is missing, non-numeric
or exactly zero, or division by 10,000,000 yields a longitude outside
[124, 132] or latitude outside [33, 43] (`fallbackCond`), it returns the
fixed fallback coordinate; otherwise it returns exactly the two exact
quotients x/10000000 and y/10000000 of the parsed values. -/
theorem katecToWgs84_spec (mapx mapy : String) :
    (TourApi.fallbackCond mapx mapy = true →
      TourApi.katecToWgs84 mapx mapy = TourApi.defaultCoords) ∧
    (TourApi.fallbackCond mapx mapy = false →
      ∃ x y : ℚ, (TourApi.parseFloat mapx).toRat = some x ∧
        (TourApi.parseFloat mapy).toRat = some y ∧
        (TourApi.katecToWgs84 mapx mapy).lng.toRat = some (x / 10000000) ∧
        (TourApi.katecToWgs84 mapx mapy).lat.toRat = some (y / 10000000)) := by
  constructor
  · intro h
    simp only [TourApi.katecToWgs84]
    split_ifs with hA hB hC
    · rfl
    · rfl
    · rfl
    · exfalso
      simp only [TourApi.fallbackCond, Bool.or_eq_true, decide_eq_true_eq] at h
      simp only [Bool.or_eq_true, decide_eq_true_eq, not_or] at hA hB hC
      tauto
  · intro h
    simp only [TourApi.fallbackCond, Bool.or_eq_false_iff,
      decide_eq_false_iff_not] at h
    obtain ⟨⟨⟨⟨⟨⟨⟨⟨⟨h1, h2⟩, hn1⟩, hn2⟩, hz1⟩, hz2⟩, hl1⟩, hg1⟩, hl2⟩, hg2⟩ := h
    have hk : TourApi.katecToWgs84 mapx mapy =
        ⟨(TourApi.parseFloat mapx).divPow10 7,
         (TourApi.parseFloat mapy).divPow10 7⟩ := by
      simp only [TourApi.katecToWgs84]
      split_ifs with hA hB hC
      · exfalso; simp [h1, h2] at hA
      · exfalso; simp [hn1, hn2, hz1, hz2] at hB
      · exfalso; simp [hl1, hg1, hl2, hg2] at hC
      · rfl
    rw [hk]
    rcases hpx : TourApi.parseFloat mapx with _ | b | ⟨m, e⟩
    · rw [hpx] at hn1; simp [TourApi.JsNum.isNaN] at hn1
    · rw [hpx] at hl1 hg1
      simp only [TourApi.JsNum.divPow10, TourApi.JsNum.ltConst,
        TourApi.JsNum.gtConst] at hl1 hg1
      rw [hl1] at hg1
      simp at hg1
    · rcases hpy : TourApi.parseFloat mapy with _ | b' | ⟨m', e'⟩
      · rw [hpy] at hn2; simp [TourApi.JsNum.isNaN] at hn2
      · rw [hpy] at hl2 hg2
        simp only [TourApi.JsNum.divPow10, TourApi.JsNum.ltConst,
          TourApi.JsNum.gtConst] at hl2 hg2
        rw [hl2] at hg2
        simp at hg2
      · refine ⟨(m : ℚ) * (10 : ℚ) ^ e, (m' : ℚ) * (10 : ℚ) ^ e', rfl, rfl, ?_, ?_⟩
        · exact jsNum_divPow10_toRat m e
        · exact jsNum_divPow10_toRat m' e'

/-- Witness for `katecToWgs84_spec`: `("0", "0")` falls back to the
default coordinate, and the in-range pair
`("1269817570", "375665000")` is converted exactly. -/
theorem katecToWgs84_spec_witness :
    TourApi.katecToWgs84 "0" "0" = TourApi.defaultCoords ∧
    (∃ x y : ℚ, (TourApi.parseFloat "1269817570").toRat = some x ∧
      (TourApi.parseFloat "375665000").toRat = some y ∧
      (TourApi.katecToWgs84 "1269817570" "375665000").lng.toRat =
        some (x / 10000000) ∧
      (TourApi.katecToWgs84 "1269817570" "375665000").lat.toRat =
        some (y / 10000000)) :=
  ⟨(katecToWgs84_spec "0" "0").1 (by decide),
   (katecToWgs84_spec "1269817570" "375665000").2 (by decide)⟩

/-- The guard invariant holds in the initial state. -/
theorem aggInv_init {α : Type} (ts : List α) (tc : Nat) :
    TourApi.aggInv (TourApi.initAgg ts tc) := rfl

/-- The guard invariant is preserved by every event. -/
theorem aggStep_inv {α : Type} (s : TourApi.AggState α) (e : TourApi.AggEvent α)
    (h : TourApi.aggInv s) : TourApi.aggInv (TourApi.aggStep s e) := by
  cases e with
  | start =>
      simp only [TourApi.aggStep, TourApi.loadMoreStart]
      split_ifs with hg
      · exact h
      · simp only [Bool.or_eq_true, not_or, Bool.not_eq_true] at hg
        simp only [TourApi.aggInv] at h ⊢
        rw [hg.1] at h
        simp at h ⊢
        omega
  | finish o =>
      have hle : s.inFlight ≤ 1 := by
        simp only [TourApi.aggInv] at h
        split at h <;> omega
      cases o with
      | ok items total =>
          simp only [TourApi.aggStep, TourApi.loadMoreFinish, TourApi.aggInv]
          simp only [Bool.false_eq_true, if_false]
          omega
      | fail m =>
          simp only [TourApi.aggStep, TourApi.loadMoreFinish, TourApi.aggInv]
          simp only [Bool.false_eq_true, if_false]
          omega

/-- The guard invariant is preserved along every event trace. -/
theorem runEvents_inv {α : Type} (evs : List (TourApi.AggEvent α)) :
    ∀ s : TourApi.AggState α, TourApi.aggInv s →
      TourApi.aggInv (TourApi.runEvents s evs) := by
  induction evs with
  | nil => intro s h; exact h
  | cons e rest ih => intro s h; exact ih _ (aggStep_inv s e h)

/-- C6: a `loadMore()` call made while a fetch is already in flight
(`isLoadingRef` set) or while the aggregator is exhausted (`hasMore`
false) is a no-op issuing no request; two back-to-back `loadMore()`
calls before the first resolves issue exactly one request (the first
issues, the second is a no-op); and along every event trace from the
initial state the number of in-flight loadMore fetches never exceeds
one. -/
theorem loadMore_guard_spec {α : Type} (ts : List α) (tc : Nat)
    (evs : List (TourApi.AggEvent α)) :
    (∀ s : TourApi.AggState α, s.isLoadingRef = true ∨ s.hasMore = false →
      TourApi.loadMoreStart s = (s, false)) ∧
    (∀ s : TourApi.AggState α, s.isLoadingRef = false → s.hasMore = true →
      (TourApi.loadMoreStart s).2 = true ∧
      (TourApi.loadMoreStart (TourApi.loadMoreStart s).1).2 = false) ∧
    (TourApi.runEvents (TourApi.initAgg ts tc) evs).inFlight ≤ 1 := by
  refine ⟨?_, ?_, ?_⟩
  · intro s hs
    unfold TourApi.loadMoreStart
    rcases hs with hs | hs <;> simp [hs]
  · intro s h1 h2
    constructor
    · simp [TourApi.loadMoreStart, h1, h2]
    · simp [TourApi.loadMoreStart, h1, h2]
  · have h := runEvents_inv evs (TourApi.initAgg ts tc) (aggInv_init ts tc)
    simp only [TourApi.aggInv] at h
    split at h <;> omega

/-- Witness for `loadMore_guard_spec`: a fresh aggregator seeded with one
of five items issues a request on the first `loadMore()` and ignores a
second back-to-back call; the two-start trace keeps at most one fetch in
flight. -/
theorem loadMore_guard_spec_witness :
    (TourApi.loadMoreStart (TourApi.initAgg ([1] : List Nat) 5)).2 = true ∧
    (TourApi.loadMoreStart
      (TourApi.loadMoreStart (TourApi.initAgg ([1] : List Nat) 5)).1).2 = false ∧
    (TourApi.runEvents (TourApi.initAgg ([1] : List Nat) 5)
      [.start, .start]).inFlight ≤ 1 := by
  have h := loadMore_guard_spec ([1] : List Nat) 5
    ([.start, .start] : List (TourApi.AggEvent Nat))
  exact ⟨(h.2.1 (TourApi.initAgg [1] 5) rfl (by decide)).1,
         (h.2.1 (TourApi.initAgg [1] 5) rfl (by decide)).2,
         h.2.2⟩

/-- With `batchSize = 0` the loop never advances `i`, so no amount of
fuel completes it: the source loop `i += batchSize` runs forever on a
nonempty id list. -/
theorem batchLoop_zero_bs {ε ρ : Type} (fetch : String → Except ε (Option ρ))
    (ids : List String) :
    ∀ (fuel i : Nat) (acc : List (String × Option ρ)), i < ids.length →
      TourApi.batchLoop fetch ids 0 fuel i acc = none := by
  intro fuel
  induction fuel with
  | zero => intro i acc _; rfl
  | succ f ih =>
      intro i acc hi
      simp only [TourApi.batchLoop, hi, if_true]
      simpa using ih i _ hi

/-- Setting a fresh key is an append. -/
theorem mapSet_fresh {ρ : Type} (m : List (String × Option ρ)) (k : String)
    (v : Option ρ) (h : m.any (fun p => p.1 = k) = false) :
    TourApi.mapSet m k v = m ++ [(k, v)] := by
  simp [TourApi.mapSet, h]

/-- Folding `Map.set` over distinct ids whose keys are fresh for the
accumulator appends one settled entry per id, in order. -/
theorem foldSet_fresh {ε ρ : Type} (fetch : String → Except ε (Option ρ)) :
    ∀ (l : List String) (acc : List (String × Option ρ)),
      l.Nodup → (∀ k ∈ l, acc.any (fun p => p.1 = k) = false) →
      l.foldl (fun m id => TourApi.mapSet m id (TourApi.settleFetch fetch id)) acc =
        acc ++ l.map (fun id => (id, TourApi.settleFetch fetch id)) := by
  intro l
  induction l with
  | nil => intro acc _ _; simp
  | cons a rest ih =>
      intro acc hnd hfresh
      have ha : acc.any (fun p => p.1 = a) = false := hfresh a (by simp)
      have hfresh' : ∀ k ∈ rest,
          (acc ++ [(a, TourApi.settleFetch fetch a)]).any (fun p => p.1 = k) = false := by
        intro k hk
        have hk1 : acc.any (fun p => p.1 = k) = false := hfresh k (by simp [hk])
        have hka : ¬a = k := by
          rcases List.nodup_cons.mp hnd with ⟨hna, _⟩
          intro hEq; exact hna (hEq ▸ hk)
        simp [List.any_append, hk1, hka]
      simp only [List.foldl_cons]
      rw [mapSet_fresh acc a _ ha,
        ih (acc ++ [(a, TourApi.settleFetch fetch a)]) (List.nodup_cons.mp hnd).2 hfresh']
      simp

/-- Looking up an id in the settled-entry map yields its settled value
(the first occurrence wins, as for JS `Map`). -/
theorem mapLookup_map_self {ε ρ : Type} (fetch : String → Except ε (Option ρ)) :
    ∀ (l : List String) (id : String), id ∈ l →
      TourApi.mapLookup (l.map (fun i => (i, TourApi.settleFetch fetch i))) id =
        some (TourApi.settleFetch fetch id) := by
  intro l
  induction l with
  | nil => intro id h; cases h
  | cons a rest ih =>
      intro id hmem
      by_cases hai : a = id
      · subst hai
        simp [TourApi.mapLookup, List.find?_cons]
      · rcases List.mem_cons.mp hmem with h | h
        · exact absurd h.symm hai
        · have := ih id h
          simp only [TourApi.mapLookup, List.map_cons, List.find?_cons] at this ⊢
          simp [hai]
          simpa [TourApi.mapLookup] using this

/-- With `batchSize ≥ 1` and enough fuel, the batching loop terminates
and computes the fold of `Map.set` over the ids not yet processed. -/
theorem batchLoop_run {ε ρ : Type} (fetch : String → Except ε (Option ρ))
    (ids : List String) (bs : Nat) (hbs : 1 ≤ bs) :
    ∀ (fuel i : Nat) (acc : List (String × Option ρ)),
      ids.length ≤ i + (fuel - 1) * bs → 1 ≤ fuel →
      TourApi.batchLoop fetch ids bs fuel i acc =
        some ((ids.drop i).foldl
          (fun m id => TourApi.mapSet m id (TourApi.settleFetch fetch id)) acc) := by
  intro fuel
  induction fuel with
  | zero => intro i acc _ h1; omega
  | succ f ih =>
      intro i acc hlen _
      simp only [TourApi.batchLoop]
      by_cases hi : i < ids.length
      · obtain ⟨f', rfl⟩ : ∃ f', f = f' + 1 := by
          refine ⟨f - 1, ?_⟩
          rcases Nat.eq_zero_or_pos f with hf0 | hf0
          · exfalso
            subst hf0
            simp only [Nat.add_sub_cancel, Nat.zero_mul] at hlen
            omega
          · omega
        simp only [hi, if_true]
        have harith : ids.length ≤ (i + bs) + ((f' + 1) - 1) * bs := by
          simp only [Nat.add_sub_cancel] at hlen ⊢
          have hsm : (f' + 1) * bs = f' * bs + bs := Nat.succ_mul f' bs
          omega
        rw [ih (i + bs) _ harith (by omega)]
        have hsplit : (ids.drop i).take bs ++ ids.drop (i + bs) = ids.drop i := by
          have hdd : ids.drop (i + bs) = (ids.drop i).drop bs := by
            rw [List.drop_drop]
          rw [hdd]
          exact List.take_append_drop bs (ids.drop i)
        conv_rhs => rw [← hsplit]
        rw [List.foldl_append]
      · simp only [hi, if_false]
        rw [List.drop_eq_nil_of_le (by omega)]
        rfl

/-- C8 counterexample: the claim quantifies over every `batchSize`, but
with `batchSize = 0` the loop `for (i = 0; i < tourIds.length; i += 0)`
never advances and `batchFetch` never resolves — modelled by the fuel
embedding returning `none` (and `batchLoop_zero_bs` shows no fuel bound
suffices). -/
theorem batchGetPetTourInfo_zero_batch_diverges :
    TourApi.batchGetPetTourInfo
      (fun _ => (Except.ok (some 0) : Except Unit (Option Nat))) ["a"] 0 = none := rfl

/-- C8 amended: for every list of distinct ids and every `batchSize ≥ 1`,
`batchGetPetTourInfo` resolves to a map with exactly one entry per input
id and never throws because of an individual fetch failure: an id whose
fetch rejected maps to `null`, every other id to its fetched record
(`settleFetch`). -/
theorem batchGetPetTourInfo_total_map {ε ρ : Type}
    (fetch : String → Except ε (Option ρ)) (tourIds : List String)
    (batchSize : Nat) (hbs : 1 ≤ batchSize) (hnd : tourIds.Nodup) :
    ∃ m, TourApi.batchGetPetTourInfo fetch tourIds batchSize = some m ∧
      m.length = tourIds.length ∧
      ∀ id ∈ tourIds, TourApi.mapLookup m id =
        some (TourApi.settleFetch fetch id) := by
  have hfuel : tourIds.length ≤ 0 + ((tourIds.length + 1) - 1) * batchSize := by
    have := Nat.mul_le_mul_left tourIds.length hbs
    simpa using this
  have hrun := batchLoop_run fetch tourIds batchSize hbs
    (tourIds.length + 1) 0 [] hfuel (by omega)
  rw [List.drop_zero,
    foldSet_fresh fetch tourIds [] hnd (by intro k _; rfl)] at hrun
  simp only [List.nil_append] at hrun
  refine ⟨_, hrun, by simp, ?_⟩
  intro id hid
  exact mapLookup_map_self fetch tourIds id hid

/-- Witness for `batchGetPetTourInfo_total_map` at the claim's scenario:
25 distinct ids, `batchSize = 10`, the 7th id's fetch rejecting — the
call resolves to a 25-entry map whose 7th entry is `null`. -/
theorem batchGetPetTourInfo_total_map_witness :
    ∃ m, TourApi.batchGetPetTourInfo
        (fun id => if id = "a7" then (Except.error () : Except Unit (Option Nat))
                   else Except.ok (some 1))
        ["a1", "a2", "a3", "a4", "a5", "a6", "a7", "a8", "a9", "a10",
         "a11", "a12", "a13", "a14", "a15", "a16", "a17", "a18", "a19", "a20",
         "a21", "a22", "a23", "a24", "a25"] 10 = some m ∧
      m.length = 25 ∧
      TourApi.mapLookup m "a7" = some none ∧
      TourApi.mapLookup m "a1" = some (some 1) := by
  obtain ⟨m, hm, hlen, hall⟩ := batchGetPetTourInfo_total_map
    (fun id => if id = "a7" then (Except.error () : Except Unit (Option Nat))
               else Except.ok (some 1))
    ["a1", "a2", "a3", "a4", "a5", "a6", "a7", "a8", "a9", "a10",
     "a11", "a12", "a13", "a14", "a15", "a16", "a17", "a18", "a19", "a20",
     "a21", "a22", "a23", "a24", "a25"] 10 (by decide) (by decide)
  refine ⟨m, hm, by simpa using hlen, ?_, ?_⟩
  · have h7 := hall "a7" (by decide)
    rwa [show TourApi.settleFetch
        (fun id => if id = "a7" then (Except.error () : Except Unit (Option Nat))
                   else Except.ok (some 1)) "a7" = none from rfl] at h7
  · have h1 := hall "a1" (by decide)
    rwa [show TourApi.settleFetch
        (fun id => if id = "a7" then (Except.error () : Except Unit (Option Nat))
                   else Except.ok (some 1)) "a1" = some 1 from by decide] at h1

/-- C9 counterexample: the claim says a `numOfRows` value that is not an
integer within 1–100 is rejected with status 400 before any upstream
call.  With `numOfRows = "abc"`, `parseInt` yields `NaN`; both
comparisons `NaN < 1` and `NaN > 100` are false, so validation passes,
the upstream call is made (flag `true`), and the endpoint answers 200
with the upstream result — not 400. -/
theorem routeGET_nan_numOfRows_not_rejected :
    TourApi.routeGET
      (fun _ _ _ _ _ => (Except.ok ([], 0) : Except String (List Nat × Nat)))
      ⟨none, none, none, some "abc", none⟩ =
      (.okJson [] 0, true) := rfl

/-- C9 amended: `numOfRows` (default `"20"`) and `pageNo` (default
`"1"`) are parsed with `parseInt`; the endpoint rejects with the 400
error object, before any upstream call, exactly when the parsed
`numOfRows` is a number `< 1` or `> 100` (respectively parsed `pageNo`
`< 1`) — comparisons against `NaN` are false, so a non-numeric value
passes validation; otherwise the upstream listing/search result is
returned as `{ items, totalCount }` on success and as the structured
`{error, code, statusCode}` object with status 500 on failure. -/
theorem routeGET_validation_spec {T : Type}
    (upstream : Option String → Option String → Option String →
      Option Int → Option Int → Except String (List T × Nat))
    (q : TourApi.RouteQuery) :
    ((TourApi.jsNumLtInt (TourApi.parseIntJs (TourApi.jsOrDefault q.numOfRows "20")) 1 ||
      TourApi.jsNumGtInt (TourApi.parseIntJs (TourApi.jsOrDefault q.numOfRows "20")) 100) = true →
      TourApi.routeGET upstream q =
        (.errJson (TourApi.createErrorResponse
          "numOfRows는 1 이상 100 이하여야 합니다." 400), false)) ∧
    ((TourApi.jsNumLtInt (TourApi.parseIntJs (TourApi.jsOrDefault q.numOfRows "20")) 1 ||
      TourApi.jsNumGtInt (TourApi.parseIntJs (TourApi.jsOrDefault q.numOfRows "20")) 100) = false →
      TourApi.jsNumLtInt (TourApi.parseIntJs (TourApi.jsOrDefault q.pageNo "1")) 1 = true →
      TourApi.routeGET upstream q =
        (.errJson (TourApi.createErrorResponse
          "pageNo는 1 이상이어야 합니다." 400), false)) ∧
    ((TourApi.jsNumLtInt (TourApi.parseIntJs (TourApi.jsOrDefault q.numOfRows "20")) 1 ||
      TourApi.jsNumGtInt (TourApi.parseIntJs (TourApi.jsOrDefault q.numOfRows "20")) 100) = false →
      TourApi.jsNumLtInt (TourApi.parseIntJs (TourApi.jsOrDefault q.pageNo "1")) 1 = false →
      (∀ items total,
        upstream (TourApi.routeKeywordArg q.keyword) (TourApi.routeOptArg q.areaCode)
          (TourApi.routeOptArg q.contentTypeId)
          (TourApi.parseIntJs (TourApi.jsOrDefault q.numOfRows "20"))
          (TourApi.parseIntJs (TourApi.jsOrDefault q.pageNo "1")) = .ok (items, total) →
        TourApi.routeGET upstream q = (.okJson items total, true)) ∧
      (∀ msg,
        upstream (TourApi.routeKeywordArg q.keyword) (TourApi.routeOptArg q.areaCode)
          (TourApi.routeOptArg q.contentTypeId)
          (TourApi.parseIntJs (TourApi.jsOrDefault q.numOfRows "20"))
          (TourApi.parseIntJs (TourApi.jsOrDefault q.pageNo "1")) = .error msg →
        TourApi.routeGET upstream q =
          (.errJson (TourApi.createErrorResponse msg 500), true))) := by
  refine ⟨?_, ?_, ?_⟩
  · intro h
    simp only [TourApi.routeGET, h, if_true]
  · intro h1 h2
    simp only [TourApi.routeGET, h1, h2, Bool.false_eq_true, if_false, if_true]
  · intro h1 h2
    constructor
    · intro items total hup
      simp only [TourApi.routeGET, h1, h2, Bool.false_eq_true, if_false, hup]
    · intro msg hup
      simp only [TourApi.routeGET, h1, h2, Bool.false_eq_true, if_false, hup]

/-- Witness for `routeGET_validation_spec`: `numOfRows = "200"` is
rejected with the 400 error object before the upstream call, while a
query with defaults returns the upstream `{ items, totalCount }`. -/
theorem routeGET_validation_spec_witness :
    TourApi.routeGET
        (fun _ _ _ _ _ => (Except.ok ([2], 1) : Except String (List Nat × Nat)))
        ⟨none, none, none, some "200", none⟩ =
      (.errJson (TourApi.createErrorResponse
        "numOfRows는 1 이상 100 이하여야 합니다." 400), false) ∧
    TourApi.routeGET
        (fun _ _ _ _ _ => (Except.ok ([2], 1) : Except String (List Nat × Nat)))
        ⟨none, none, none, none, none⟩ =
      (.okJson [2] 1, true) := by
  constructor
  · exact (routeGET_validation_spec
      (fun _ _ _ _ _ => (Except.ok ([2], 1) : Except String (List Nat × Nat)))
      ⟨none, none, none, some "200", none⟩).1 (by decide)
  · exact ((routeGET_validation_spec
      (fun _ _ _ _ _ => (Except.ok ([2], 1) : Except String (List Nat × Nat)))
      ⟨none, none, none, none, none⟩).2.2 (by decide) (by decide)).1 [2] 1 rfl
